import Mathlib

/-!
# Verification of the `websocket-dp-call-logs` event relay

A shallow embedding of the webhook → verify → admit → broadcast pipeline
(`src/server.js`) and of the producer-side retry client
(`src/test-rate-limit-retry.js`), with theorems settling the frozen claims
about the natural-language specification.

Conventions of the embedding:
* JavaScript numbers that stay integral are modelled as `Nat`; the one
  real-valued quantity (the jitter of `Math.random() * 1000`) is a `ℚ`
  parameter to the function that consumes it.
* Results of external library calls (`JSON.parse` over the base64-decoded
  header, `jwt.verify`) are inputs to the handler: the handler is a function
  of those outcomes, translated branch by branch from the source.
* JavaScript truthiness is modelled explicitly where the source relies on it
  (`decoded.data || decoded`, `if (retryAfter)`).
-/

namespace DPRelay

/-! ## Retry client, `src/test-rate-limit-retry.js`

Constants from lines 23-25 of the test script. -/

def MAX_RETRIES : Nat := 5

def INITIAL_RETRY_DELAY : Nat := 1000

def MAX_RETRY_DELAY : Nat := 60000

/-- JavaScript truthiness of the `retryAfter` argument of
`calculateRetryDelay` (a number or absent): `null`/`undefined` and `0` are
falsy, every other number is truthy. -/
def jsTruthyNat : Option Nat → Bool
  | none => false
  | some n => n != 0

/-- The clamped exponential base delay computed by `calculateRetryDelay`
(lines 58-61): `Math.min(INITIAL_RETRY_DELAY * Math.pow(2, attempt),
MAX_RETRY_DELAY)`. -/
def backoffBase (attempt : Nat) : Nat :=
  min (INITIAL_RETRY_DELAY * 2 ^ attempt) MAX_RETRY_DELAY

/-- `calculateRetryDelay(attempt, retryAfter)` (lines 53-65).  The value of
`Math.random() * 1000` is passed in as the `jitter` argument.  When
`retryAfter` is truthy the function returns `retryAfter * 1000` at once and
the jitter is never consumed; otherwise it returns the clamped exponential
delay plus the jitter. -/
def calculateRetryDelay (attempt : Nat) (retryAfter : Option Nat) (jitter : ℚ) : ℚ :=
  if jsTruthyNat retryAfter then ((retryAfter.getD 0) * 1000 : Nat)
  else (backoffBase attempt : ℚ) + jitter

/-- Outcome of one HTTP POST of the signed token, as observed by the catch
block of `sendWebhookWithRetry` (lines 114-157): a 2xx response, an error
response with a status code (and possibly a `retryAfter` hint), or a
request-level error with no response at all. -/
inductive HttpReply where
  | ok
  | errStatus (status : Nat) (retryAfter : Option Nat)
  | noResponse
deriving DecidableEq

/-- Result object returned by `sendWebhookWithRetry`.  Each constructor
carries the `attempt + 1` value the source stores in its `attempt` /
`attempts` field at the point of return. -/
inductive SendResult where
  | success (attempts : Nat)
  | maxRetriesExceeded (attempts : Nat)
  | httpError (status : Nat) (attempts : Nat)
  | requestError (attempts : Nat)
deriving DecidableEq

/-- `sendWebhookWithRetry(event, index, attempt)` (lines 92-159), abstracted
over the sequence of server replies (`respond n` is the reply to the send
performed with attempt index `n`).  On a 429 reply the function recurses
with `attempt + 1` while `attempt < MAX_RETRIES`, and otherwise returns the
`Max retries exceeded` failure with `attempts = attempt + 1`; every other
error is terminal at once.  (The sleep between attempts has no effect on the
result and is not modelled.) -/
def sendWebhookWithRetry (respond : Nat → HttpReply) (attempt : Nat) : SendResult :=
  match respond attempt with
  | .ok => .success (attempt + 1)
  | .errStatus status _ =>
    if status = 429 then
      if h : attempt < MAX_RETRIES then
        sendWebhookWithRetry respond (attempt + 1)
      else
        .maxRetriesExceeded (attempt + 1)
    else
      .httpError status (attempt + 1)
  | .noResponse => .requestError (attempt + 1)
termination_by MAX_RETRIES + 1 - attempt
decreasing_by
  simp_wf
  omega

/-- A server that answers every attempt with a 429 rejection carrying no
`retryAfter` hint. -/
def alwaysRateLimited : Nat → HttpReply := fun _ => .errStatus 429 none

/-- A server that rejects attempts 0..4 with 429 and accepts attempt 5. -/
def rejectFirstFive : Nat → HttpReply :=
  fun n => if n < 5 then .errStatus 429 none else .ok

/-! ## Admission limiter, `src/server.js` lines 17-18 and 41-62

The fixed-window bookkeeping lives inside the `express-rate-limit`
dependency, which is not part of this repository; its behaviour is
`Modelled from the spec:` the spec describes the fixed-window algorithm
(reset the window when `now − windowStart ≥ windowDuration`, admit while
`count < max`).  The rejection body, in particular its `retryAfter` field,
is translated from the `handler` in `src/server.js` lines 46-61, which
computes the constant `Math.ceil(RATE_LIMIT_WINDOW_MS / 1000)`. -/

def RATE_LIMIT_MAX : Nat := 1200

def RATE_LIMIT_WINDOW_MS : Nat := 60 * 1000

/-- `Math.ceil(a / b)` for nonnegative integers. -/
def jsMathCeilDiv (a b : Nat) : Nat := (a + b - 1) / b

/-- Per-source admission window state: `{windowStart, count}`. -/
structure WindowState where
  windowStart : Nat
  count : Nat
deriving DecidableEq

/-- Outcome of one admission check. -/
inductive AdmitResult where
  | admitted
  | rejected (retryAfter : Nat)
deriving DecidableEq

/-- The `retryAfter` value the `handler` of `src/server.js` (line 59) puts
into every 429 body: `Math.ceil(RATE_LIMIT_WINDOW_MS / 1000)`. -/
def handlerRetryAfter : Nat := jsMathCeilDiv RATE_LIMIT_WINDOW_MS 1000

/-- One admission check at time `now` (milliseconds): reset the window when
it has elapsed, admit while the count is below `RATE_LIMIT_MAX`, otherwise
reject with the body the source handler builds. -/
def tryAdmit (s : WindowState) (now : Nat) : AdmitResult × WindowState :=
  let s1 := if RATE_LIMIT_WINDOW_MS ≤ now - s.windowStart
            then { windowStart := now, count := 0 }
            else s
  if s1.count < RATE_LIMIT_MAX then
    (.admitted, { s1 with count := s1.count + 1 })
  else
    (.rejected handlerRetryAfter, s1)

/-- The `retryAfter` the claim describes, written from the spec sentence
`retryAfter = windowDuration − (now − windowStart)`, rounded up to whole
seconds.  This definition follows the spec words and exists only to be
compared with the value the source computes. -/
def specRemainingRetryAfter (now windowStart : Nat) : Nat :=
  jsMathCeilDiv (RATE_LIMIT_WINDOW_MS - (now - windowStart)) 1000

/-! ## JSON values and JavaScript truthiness -/

/-- A JSON value, as produced by `JSON.parse` / `jwt.verify`. -/
inductive Json where
  | null
  | bool (b : Bool)
  | num (n : Int)
  | str (s : String)
  | arr (elems : List Json)
  | obj (fields : List (String × Json))

/-- JavaScript property access `j.k` on a JSON value: a field of an object,
`undefined` (here `none`) on everything that is not an object.  (Access on
`null` throws instead; the handler below treats that case separately.) -/
def Json.get : Json → String → Option Json
  | .obj fields, k => fields.lookup k
  | _, _ => none

/-- Whether a JSON value is `null` (property access on it throws). -/
def Json.isNull : Json → Bool
  | .null => true
  | _ => false

/-- JavaScript truthiness of a JSON value: `null`, `false`, `0` and the
empty string are falsy; every other value, in particular every object and
array, is truthy. -/
def Json.truthy : Json → Bool
  | .null => false
  | .bool b => b
  | .num n => n != 0
  | .str s => s != ""
  | .arr _ => true
  | .obj _ => true

/-- `a || b` where `a` is a possibly-absent JSON value (`none` plays the
role of `undefined`). -/
def jsOr (a : Option Json) (b : Json) : Json :=
  match a with
  | some v => if v.truthy then v else b
  | none => b

/-! ## Subscriber registry and broadcast, `src/server.js` lines 64-115 and
207-234

A Socket.IO socket is modelled by the identifier under which `clientInfo`
tracks it, the set of rooms it has joined through `subscribe` messages, and
its `eventsReceived` counter. -/

structure Subscriber where
  id : String
  rooms : List String
  eventsReceived : Nat
deriving DecidableEq

/-- The server's connection-tracking state: the `connectedClients` counter
and the `clientInfo` map (in insertion order). -/
structure ServerState where
  connectedClients : Nat
  clients : List Subscriber
deriving DecidableEq

/-- The `connection` handler (lines 69-88): increment the counter and insert
a fresh entry with no joined rooms and a zero counter. -/
def handleConnect (st : ServerState) (cid : String) : ServerState :=
  { connectedClients := st.connectedClients + 1
  , clients := st.clients ++ [{ id := cid, rooms := [], eventsReceived := 0 }] }

/-- The `disconnect` handler (lines 105-114): decrement the counter and
delete the entry. -/
def handleDisconnect (st : ServerState) (cid : String) : ServerState :=
  { connectedClients := st.connectedClients - 1
  , clients := st.clients.filter (fun s => s.id != cid) }

/-- `socket.join(eventTypes)`: add the socket to each listed room it is not
already in.  Socket.IO rooms are sets, so joining a room twice is a no-op,
and joining never removes the socket from any room. -/
def joinRooms (rooms : List String) (eventTypes : List String) : List String :=
  eventTypes.foldl (fun acc t => if t ∈ acc then acc else acc ++ [t]) rooms

/-- The `subscribe` handler (lines 91-97).  The payload of a subscribe
message is a JSON value; `Array.isArray` gates the handler, so a non-array
payload (`none` here) is ignored, and an array payload makes the socket join
each named room. -/
def handleSubscribe (st : ServerState) (cid : String)
    (eventTypes : Option (List String)) : ServerState :=
  match eventTypes with
  | some ts =>
    let upd := fun (s : Subscriber) =>
      if s.id = cid then { s with rooms := joinRooms s.rooms ts } else s
    { st with clients := st.clients.map upd }
  | none => st

/-- The event envelope built by the webhook handler (lines 208-212):
`{type: decoded.type, data: decoded.data || decoded, timestamp}`.  `type` is
`none` when the verified payload has no `type` field (JavaScript
`undefined`); the timestamp does not matter to any claim and is omitted. -/
structure EventEnvelope where
  type : Option Json
  data : Json

/-- Whether `io.to(eventType)` reaches a socket with the given joined rooms:
only sockets that joined the room named by the event's `type` string.  A
missing or non-string `type` names a room no socket has joined via
`subscribe` (subscribe payloads are arrays of strings). -/
def roomMatch (t : Option Json) (rooms : List String) : Bool :=
  match t with
  | some (.str s) => rooms.contains s
  | _ => false

/-- The observable effect of the broadcast section of the webhook handler
(lines 214-223): who receives the global `dialpad:event` emit, who receives
the type-scoped emit, and the updated `clientInfo` counters. -/
structure BroadcastOutcome where
  globalDeliveries : List String
  scopedDeliveries : List String
  newClients : List Subscriber
deriving DecidableEq

/-- `io.emit` reaches every connected socket; `io.to(eventType).emit`
reaches the sockets in that room; `clientInfo.forEach` increments every
tracked socket's `eventsReceived`. -/
def broadcastEvent (st : ServerState) (ev : EventEnvelope) : BroadcastOutcome :=
  { globalDeliveries := st.clients.map (fun s => s.id)
  , scopedDeliveries :=
      (st.clients.filter (fun s => roomMatch ev.type s.rooms)).map (fun s => s.id)
  , newClients :=
      st.clients.map (fun s => { s with eventsReceived := s.eventsReceived + 1 }) }

/-! ## The webhook handler, `src/server.js` lines 151-254 -/

/-- Result of `JSON.parse(Buffer.from(tokenParts[0], 'base64').toString())`:
either the parse throws (the header bytes are not valid JSON), or it yields
a JSON value.  `Buffer.from(..., 'base64')` itself never throws in Node. -/
inductive HeaderParse where
  | throwsSyntaxError
  | value (j : Json)

/-- Result of `jwt.verify(token, secret, {algorithms: ['HS256']})`: the
decoded payload, a `JsonWebTokenError` (bad signature and similar), or a
`TokenExpiredError`. -/
inductive JwtOutcome where
  | ok (payload : Json)
  | jsonWebTokenError
  | tokenExpiredError

/-- Response bodies the webhook handler can produce (the `details` and
timestamp fields do not matter to any claim). -/
inductive RespBody where
  | errorMsg (e : String)
  | successBody (broadcasted : Nat)
deriving DecidableEq

/-- Everything observable about one handled webhook request: HTTP status,
body, the envelope that was broadcast (if any) and the broadcast effect
(if any). -/
structure WebhookResult where
  status : Nat
  body : RespBody
  envelope : Option EventEnvelope
  outcome : Option BroadcastOutcome

/-- `header.alg !== ALLOWED_ALGORITHM` negated: JavaScript strict equality
of the `alg` property (any value, or `undefined` when absent) with the
string `'HS256'`, which holds exactly when the property is that string. -/
def algIsHS256 : Option Json → Bool
  | some (.str s) => s == "HS256"
  | _ => false

/-! The request body is a JavaScript string; it is modelled by its list of
characters so that the model computes by kernel reduction. -/

/-- The double-quote character. -/
def dquoteChar : Char := Char.ofNat 34

/-- The single-quote character. -/
def squoteChar : Char := Char.ofNat 39

/-- The dot character. -/
def dotChar : Char := Char.ofNat 46

/-- `s.trim()`: remove leading and trailing whitespace. -/
def jsTrim (s : List Char) : List Char :=
  ((s.dropWhile Char.isWhitespace).reverse.dropWhile Char.isWhitespace).reverse

/-- Drop one leading quote character (single or double) if present. -/
def dropLeadQuote : List Char → List Char
  | c :: rest => if c = dquoteChar || c = squoteChar then rest else c :: rest
  | [] => []

/-- `token.replace(/^["']|["']$/g, '')`: drop one leading and one trailing
quote character (single or double). -/
def stripOuterQuotes (s : List Char) : List Char :=
  (dropLeadQuote (dropLeadQuote s).reverse).reverse

/-- `token.split('.')`: the dot-separated segments, JavaScript semantics
(`''.split('.')` is `['']`, separators at the ends yield empty segments). -/
def splitOnDot : List Char → List (List Char)
  | [] => [[]]
  | c :: cs =>
    let rest := splitOnDot cs
    if c = dotChar then [] :: rest
    else
      match rest with
      | r :: rs => (c :: r) :: rs
      | [] => [[c]]

/-- The `POST /webhook` handler (lines 151-254), as a function of the raw
text body, of the configuration flag `WEBHOOK_SECRET` being set, of the two
external-library outcomes (`parseHeader` applied to the first token segment,
`verify` applied to the whole token), and of the current server state.
Branches in source order:
* empty token → 400 `No token provided`;
* missing secret → 500 `Server configuration error`;
* segment count ≠ 3 → 400 `Invalid token format`;
* header JSON undecodable → the thrown `SyntaxError` reaches the catch
  block, whose `error.name` tests match neither `JsonWebTokenError` nor
  `TokenExpiredError` → 500 `Internal server error`;
* header parses to `null` → `header.alg` throws `TypeError` → likewise 500;
* `header.alg !== 'HS256'` → 401 `Invalid algorithm`;
* `jwt.verify` failures → 401 (`Invalid signature` / `Token expired`);
* success → build the envelope, broadcast, 200 with
  `broadcasted = connectedClients`. -/
def handleWebhook (secretConfigured : Bool) (rawBody : List Char)
    (parseHeader : List Char → HeaderParse) (verify : List Char → JwtOutcome)
    (st : ServerState) : WebhookResult :=
  let token := stripOuterQuotes (jsTrim rawBody)
  if token = [] then
    ⟨400, .errorMsg "No token provided", none, none⟩
  else if secretConfigured = false then
    ⟨500, .errorMsg "Server configuration error", none, none⟩
  else
    let tokenParts := splitOnDot token
    if tokenParts.length ≠ 3 then
      ⟨400, .errorMsg "Invalid token format", none, none⟩
    else
      match parseHeader (tokenParts.getD 0 []) with
      | .throwsSyntaxError =>
        ⟨500, .errorMsg "Internal server error", none, none⟩
      | .value header =>
        if header.isNull then
          ⟨500, .errorMsg "Internal server error", none, none⟩
        else if algIsHS256 (header.get "alg") = false then
          ⟨401, .errorMsg "Invalid algorithm", none, none⟩
        else
          match verify token with
          | .jsonWebTokenError => ⟨401, .errorMsg "Invalid signature", none, none⟩
          | .tokenExpiredError => ⟨401, .errorMsg "Token expired", none, none⟩
          | .ok decoded =>
            let env : EventEnvelope :=
              { type := decoded.get "type", data := jsOr (decoded.get "data") decoded }
            ⟨200, .successBody st.connectedClients, some env, some (broadcastEvent st env)⟩

/-! ## Concrete fixtures used by witnesses and counterexamples -/

/-- A three-segment request body. -/
def hpsBody : List Char := "h.p.s".toList

/-- A header oracle returning the well-formed `{"alg": "HS256"}` header. -/
def hdrHS256 : List Char → HeaderParse :=
  fun _ => .value (.obj [("alg", .str "HS256")])

/-- A header oracle whose `JSON.parse` throws. -/
def hdrThrows : List Char → HeaderParse := fun _ => .throwsSyntaxError

/-- A verifier oracle that accepts and yields the given payload. -/
def okVerify (p : Json) : List Char → JwtOutcome := fun _ => .ok p

/-- A verified payload with a nested `data` field and no `type` field. -/
def payloadNoType : Json := .obj [("data", .obj [("id", .str "x")])]

/-- A verified payload with a `type` but no `data` field. -/
def payloadTypeOnly : Json := .obj [("type", .str "t"), ("x", .num 1)]

/-- A verified payload whose nested `data` field is present but falsy. -/
def payloadFalsyData : Json := .obj [("type", .str "t"), ("data", .num 0)]

/-- A well-formed verified payload with `type` and truthy `data`. -/
def payloadFull : Json :=
  .obj [("type", .str "call.created"), ("data", .obj [("id", .str "e1")])]

/-- A server state with one fresh subscriber. -/
def oneClientState : ServerState :=
  { connectedClients := 1
  , clients := [{ id := "c1", rooms := [], eventsReceived := 0 }] }

/-- A server state with two subscribers, one of them subscribed. -/
def twoClientState : ServerState :=
  { connectedClients := 2
  , clients := [{ id := "c1", rooms := [], eventsReceived := 0 },
                { id := "c2", rooms := ["call.created"], eventsReceived := 3 }] }

/-! ## Theorems -/

/-- Against a server that answers 429 to every attempt index up to
`MAX_RETRIES`, the retry loop starting at any attempt index `≤ MAX_RETRIES`
terminates with `Max retries exceeded` and an `attempts` field of
`MAX_RETRIES + 1`. -/
lemma sendWebhookWithRetry_allRejected (respond : Nat → HttpReply)
    (hresp : ∀ n, n ≤ MAX_RETRIES → ∃ ra, respond n = HttpReply.errStatus 429 ra) :
    ∀ k attempt, MAX_RETRIES - attempt = k → attempt ≤ MAX_RETRIES →
      sendWebhookWithRetry respond attempt
        = SendResult.maxRetriesExceeded (MAX_RETRIES + 1) := by
  intro k
  induction k with
  | zero =>
    intro attempt hk hle
    have ha : attempt = MAX_RETRIES := by omega
    obtain ⟨ra, hra⟩ := hresp attempt hle
    unfold sendWebhookWithRetry
    rw [hra]
    subst ha
    simp
  | succ k ih =>
    intro attempt hk hle
    have hlt : attempt < MAX_RETRIES := by omega
    obtain ⟨ra, hra⟩ := hresp attempt hle
    unfold sendWebhookWithRetry
    rw [hra]
    simp only [if_pos rfl, hlt, dif_pos]
    exact ih (attempt + 1) (by omega) (by omega)

/-- Membership after `socket.join`: a room is joined afterwards iff it was
joined before or is among the rooms being joined. -/
lemma mem_joinRooms (ts : List String) (rooms : List String) (t : String) :
    t ∈ joinRooms rooms ts ↔ t ∈ rooms ∨ t ∈ ts := by
  induction ts generalizing rooms with
  | nil => simp [joinRooms]
  | cons u us ih =>
    show t ∈ joinRooms (if u ∈ rooms then rooms else rooms ++ [u]) us ↔ _
    rw [ih]
    by_cases hu : u ∈ rooms
    · simp only [if_pos hu, List.mem_cons]
      constructor
      · rintro (h | h)
        · exact Or.inl h
        · exact Or.inr (Or.inr h)
      · rintro (h | rfl | h)
        · exact Or.inl h
        · exact Or.inl hu
        · exact Or.inr h
    · simp only [if_neg hu, List.mem_append, List.mem_singleton, List.mem_cons]
      tauto

/-- The success path of the webhook handler: when the processed token is
nonempty and has three segments, the header parses to a non-null value whose
`alg` is `HS256`, and `jwt.verify` yields `payload`, the handler responds
200 with `broadcasted = connectedClients` and broadcasts the envelope
`{type: payload.type, data: payload.data || payload}`. -/
lemma handleWebhook_success (raw : List Char) (parseHeader : List Char → HeaderParse)
    (verify : List Char → JwtOutcome) (st : ServerState) (header payload : Json)
    (htok : stripOuterQuotes (jsTrim raw) ≠ [])
    (hsplit : (splitOnDot (stripOuterQuotes (jsTrim raw))).length = 3)
    (hhdr : parseHeader ((splitOnDot (stripOuterQuotes (jsTrim raw))).getD 0 [])
              = .value header)
    (hnull : header.isNull = false)
    (halg : algIsHS256 (header.get "alg") = true)
    (hver : verify (stripOuterQuotes (jsTrim raw)) = .ok payload) :
    handleWebhook true raw parseHeader verify st
      = ⟨200, .successBody st.connectedClients,
          some { type := payload.get "type", data := jsOr (payload.get "data") payload },
          some (broadcastEvent st
            { type := payload.get "type", data := jsOr (payload.get "data") payload })⟩ := by
  unfold handleWebhook
  simp only [if_neg htok, hsplit, hhdr, hnull, halg, hver]
  simp

/-- C1: the claim states that every 429 body carries
`retryAfter = ceil((windowDuration − (now − windowStart)) / 1000)`.  It is
false: a source at full capacity checked halfway through the window (30 s
elapsed of 60 s) is rejected with `retryAfter = 60`, while the remaining
window time is 30 s. -/
theorem C1_counterexample :
    (tryAdmit { windowStart := 0, count := 1200 } 30000).1 = .rejected 60
    ∧ specRemainingRetryAfter 30000 0 = 30
    ∧ (60 : Nat) ≠ 30 := by
  refine ⟨by decide, by decide, by decide⟩

/-- C1 (amended): every rejection carries the constant
`retryAfter = Math.ceil(RATE_LIMIT_WINDOW_MS / 1000) = 60` seconds,
independent of how far the window has progressed. -/
theorem C1_theorem (s : WindowState) (now : Nat) (r : Nat)
    (h : (tryAdmit s now).1 = .rejected r) :
    r = handlerRetryAfter ∧ handlerRetryAfter = 60 := by
  refine ⟨?_, by decide⟩
  unfold tryAdmit at h
  set s1 := if RATE_LIMIT_WINDOW_MS ≤ now - s.windowStart
            then ({ windowStart := now, count := 0 } : WindowState)
            else s with hs1
  by_cases hc : s1.count < RATE_LIMIT_MAX
  · simp only [if_pos hc] at h
    exact absurd h (by simp)
  · simp only [if_neg hc] at h
    have := AdmitResult.rejected.inj h
    omega

/-- C1 witness: the amended theorem applied to the concrete rejection of the
counterexample state. -/
theorem C1_witness :
    (60 : Nat) = handlerRetryAfter ∧ handlerRetryAfter = 60 :=
  C1_theorem { windowStart := 0, count := 1200 } 30000 60 (by decide)

/-- C3: the claim states that attempt 6 computes a base delay of 32 s.  It
is false: `min(1000 · 2^6, 60000) = 60000`, so attempt 6 already clamps to
60 s (32 s is the base delay of attempt 5). -/
theorem C3_counterexample :
    calculateRetryDelay 6 none 0 ≠ (32000 : ℚ)
    ∧ calculateRetryDelay 6 none 0 = (60000 : ℚ) := by
  constructor <;>
    norm_num [calculateRetryDelay, jsTruthyNat, backoffBase,
      INITIAL_RETRY_DELAY, MAX_RETRY_DELAY]

/-- C3 (amended): with no server-supplied `retryAfter`, the delay for
attempt `a` is `min(initialDelay · 2^a, maxDelay)` plus the additive jitter
drawn from `[0, 1000 ms)`; the base delays for attempts 0..4 are 1 s, 2 s,
4 s, 8 s, 16 s, attempt 5 computes 32 s (still under `maxDelay`), and
attempts 6 and 7 clamp to 60 s. -/
theorem C3_theorem :
    (∀ (a : Nat) (j : ℚ), 0 ≤ j → j < 1000 →
        calculateRetryDelay a none j
          = ((min (1000 * 2 ^ a) 60000 : Nat) : ℚ) + j)
    ∧ backoffBase 0 = 1000 ∧ backoffBase 1 = 2000 ∧ backoffBase 2 = 4000
    ∧ backoffBase 3 = 8000 ∧ backoffBase 4 = 16000
    ∧ backoffBase 5 = 32000 ∧ backoffBase 6 = 60000 ∧ backoffBase 7 = 60000 := by
  refine ⟨fun a j _ _ => ?_, by decide, by decide, by decide, by decide,
    by decide, by decide, by decide, by decide⟩
  simp [calculateRetryDelay, jsTruthyNat, backoffBase, INITIAL_RETRY_DELAY,
    MAX_RETRY_DELAY]

/-- C3 witness: the amended formula evaluated at attempt 3 with jitter
500 ms gives 8000 + 500 ms. -/
theorem C3_witness : calculateRetryDelay 3 none 500 = (8500 : ℚ) := by
  have h := C3_theorem.1 3 500 (by norm_num) (by norm_num)
  rw [h]
  norm_num

/-- C4: the claim states that a submission rejected on every attempt stops
after exactly 5 consecutive rejections with a reported attempt count of 5.
It is false: against a server that rejects every attempt, the retry client
performs attempts 0..5 — six sends, six rejections — and reports
`Max retries exceeded` with `attempts = 6`. -/
theorem C4_counterexample :
    sendWebhookWithRetry alwaysRateLimited 0 = .maxRetriesExceeded 6
    ∧ SendResult.maxRetriesExceeded 6 ≠ .maxRetriesExceeded 5 := by
  constructor
  · unfold alwaysRateLimited
    repeat (unfold sendWebhookWithRetry; norm_num [MAX_RETRIES])
  · decide

/-- C4 (amended): against a server that answers 429 to attempts 0 through
`MAX_RETRIES = 5`, the retry client stops after exactly six consecutive
rejections (the initial attempt plus five retries, attempt indices 0..5),
reporting the failure result `Max retries exceeded` with `attempts = 6`;
and after only five consecutive rejections a sixth attempt is still issued,
as a server accepting attempt 5 shows. -/
theorem C4_theorem (respond : Nat → HttpReply)
    (h : ∀ n, n ≤ MAX_RETRIES → ∃ ra, respond n = HttpReply.errStatus 429 ra) :
    sendWebhookWithRetry respond 0 = .maxRetriesExceeded 6
    ∧ sendWebhookWithRetry rejectFirstFive 0 = .success 6 := by
  constructor
  · have := sendWebhookWithRetry_allRejected respond h MAX_RETRIES 0 (by decide) (by decide)
    simpa [MAX_RETRIES] using this
  · unfold rejectFirstFive
    repeat (unfold sendWebhookWithRetry; norm_num [MAX_RETRIES])

/-- C4 witness: the amended theorem applied to the always-rejecting
server. -/
theorem C4_witness :
    sendWebhookWithRetry alwaysRateLimited 0 = .maxRetriesExceeded 6
    ∧ sendWebhookWithRetry rejectFirstFive 0 = .success 6 :=
  C4_theorem alwaysRateLimited (fun _ _ => ⟨none, rfl⟩)

/-- C10: a server-supplied `retryAfter` of 0 (or an absent one) is falsy and
is treated as absent — the delay is then the exponential base plus jitter —
while a nonzero `retryAfter` is used verbatim, scaled to milliseconds, with
no jitter added (the result does not depend on the jitter argument). -/
theorem C10_theorem :
    (∀ (a : Nat) (j : ℚ),
        calculateRetryDelay a (some 0) j = calculateRetryDelay a none j)
    ∧ (∀ (a : Nat) (j : ℚ),
        calculateRetryDelay a none j = (backoffBase a : ℚ) + j)
    ∧ (∀ (a r : Nat) (j : ℚ), r ≠ 0 →
        calculateRetryDelay a (some r) j = ((r * 1000 : Nat) : ℚ)) := by
  refine ⟨fun a j => ?_, fun a j => ?_, fun a r j hr => ?_⟩
  · simp [calculateRetryDelay, jsTruthyNat]
  · simp [calculateRetryDelay, jsTruthyNat]
  · simp [calculateRetryDelay, jsTruthyNat, hr]

/-- C10 witness: `retryAfter = 7` with attempt 2 and jitter 999 gives
exactly 7000 ms — the jitter is not added. -/
theorem C10_witness : calculateRetryDelay 2 (some 7) 999 = (7000 : ℚ) := by
  have h := C10_theorem.2.2 2 7 999 (by norm_num)
  rw [h]
  norm_num

/-- C2: the claim states that a subscriber whose subscribed-type set is
empty receives the type-scoped message for every event type.  It is false:
a freshly connected subscriber that never sent a subscribe request has
joined no room, and the type-scoped emit of a `call.created` event reaches
nobody. -/
theorem C2_counterexample :
    ((handleConnect { connectedClients := 0, clients := [] } "c1").clients.map
        (fun s => s.rooms)) = [[]]
    ∧ (broadcastEvent (handleConnect { connectedClients := 0, clients := [] } "c1")
        { type := some (.str "call.created"), data := .null }).scopedDeliveries = []
    ∧ (broadcastEvent (handleConnect { connectedClients := 0, clients := [] } "c1")
        { type := some (.str "call.created"), data := .null }).globalDeliveries = ["c1"] := by
  refine ⟨rfl, ?_, rfl⟩
  simp [broadcastEvent, handleConnect, roomMatch]

/-- C2 (amended): for a broadcast of an event of type `t`, a registered
subscriber receives the type-scoped message iff it has joined the room named
`t` (i.e. some earlier subscribe request contained `t`); a subscriber that
never subscribed receives no type-scoped message.  The global message
reaches it regardless. -/
theorem C2_theorem (st : ServerState) (t : String) (d : Json) (s : Subscriber)
    (hs : s ∈ st.clients) (hn : (st.clients.map (fun c => c.id)).Nodup) :
    (s.id ∈ (broadcastEvent st { type := some (.str t), data := d }).scopedDeliveries
      ↔ t ∈ s.rooms)
    ∧ s.id ∈ (broadcastEvent st { type := some (.str t), data := d }).globalDeliveries := by
  constructor
  · constructor
    · intro h
      simp only [broadcastEvent, List.mem_map, List.mem_filter] at h
      obtain ⟨c, ⟨hc, hpc⟩, hid⟩ := h
      have hcs : c = s := List.inj_on_of_nodup_map hn hc hs hid
      subst hcs
      simpa [roomMatch, List.contains, List.elem_iff] using hpc
    · intro h
      simp only [broadcastEvent, List.mem_map, List.mem_filter]
      exact ⟨s, ⟨hs, by simpa [roomMatch, List.contains, List.elem_iff] using h⟩, rfl⟩
  · simp only [broadcastEvent, List.mem_map]
    exact ⟨s, hs, rfl⟩

/-- C2 witness: a subscriber subscribed to `call.created` receives the
type-scoped `call.created` message and the global message. -/
theorem C2_witness :
    (("c1" : String) ∈ (broadcastEvent
        { connectedClients := 1,
          clients := [{ id := "c1", rooms := ["call.created"], eventsReceived := 0 }] }
        { type := some (.str "call.created"), data := .null }).scopedDeliveries
      ↔ ("call.created" : String) ∈ (["call.created"] : List String))
    ∧ ("c1" : String) ∈ (broadcastEvent
        { connectedClients := 1,
          clients := [{ id := "c1", rooms := ["call.created"], eventsReceived := 0 }] }
        { type := some (.str "call.created"), data := .null }).globalDeliveries :=
  C2_theorem
    { connectedClients := 1,
      clients := [{ id := "c1", rooms := ["call.created"], eventsReceived := 0 }] }
    "call.created" .null
    { id := "c1", rooms := ["call.created"], eventsReceived := 0 }
    (by decide) (by decide)

/-- C5: the claim states that a subscribe request replaces the previous
subscribed-type set, so that after subscribing to `{call.created}` and then
to `{sms.inbound}` the consumer no longer receives type-scoped
`call.created` messages.  It is false: `socket.join` only adds rooms, so the
type-scoped `call.created` emit still reaches the consumer. -/
theorem C5_counterexample :
    (broadcastEvent
        (handleSubscribe
          (handleSubscribe (handleConnect { connectedClients := 0, clients := [] } "c1")
            "c1" (some ["call.created"]))
          "c1" (some ["sms.inbound"]))
        { type := some (.str "call.created"), data := .null }).scopedDeliveries
      = ["c1"] := by
  simp [broadcastEvent, handleSubscribe, handleConnect, joinRooms, roomMatch]

/-- C5 (amended): a subscribe request merges with (never removes from) the
consumer's joined rooms: after subscribing to `A` and then to `B`, the
consumer's type-scoped deliveries are governed by the union of its previous
rooms with `A` and `B`. -/
theorem C5_theorem (st : ServerState) (cid : String) (A B : List String)
    (s : Subscriber) (hs : s ∈ st.clients) (hid : s.id = cid) :
    ∃ s2 ∈ (handleSubscribe (handleSubscribe st cid (some A)) cid (some B)).clients,
      s2.id = cid ∧ ∀ t, t ∈ s2.rooms ↔ t ∈ s.rooms ∨ t ∈ A ∨ t ∈ B := by
  refine ⟨{ s with rooms := joinRooms (joinRooms s.rooms A) B }, ?_, hid, ?_⟩
  · simp only [handleSubscribe, List.map_map, List.mem_map]
    refine ⟨s, hs, ?_⟩
    simp [Function.comp, hid]
  · intro t
    rw [mem_joinRooms, mem_joinRooms]
    tauto

/-- C5 witness: the amended theorem applied to a fresh consumer subscribing
first to `{call.created}` and then to `{sms.inbound}`. -/
theorem C5_witness :
    ∃ s2 ∈ (handleSubscribe
        (handleSubscribe (handleConnect { connectedClients := 0, clients := [] } "c1")
          "c1" (some ["call.created"]))
        "c1" (some ["sms.inbound"])).clients,
      s2.id = "c1"
      ∧ ∀ t, t ∈ s2.rooms
          ↔ t ∈ ([] : List String) ∨ t ∈ ["call.created"] ∨ t ∈ ["sms.inbound"] :=
  C5_theorem (handleConnect { connectedClients := 0, clients := [] } "c1") "c1"
    ["call.created"] ["sms.inbound"]
    { id := "c1", rooms := [], eventsReceived := 0 } (by decide) rfl

/-- C6: the claim states that a three-segment token whose header segment is
not valid JSON is answered with status 400.  It is false: `JSON.parse`
throws a `SyntaxError`, which the catch block does not recognise as a JWT
error, so the handler answers 500. -/
theorem C6_counterexample :
    (handleWebhook true "a.b.c".toList hdrThrows (okVerify .null)
        { connectedClients := 0, clients := [] }).status = 500
    ∧ (500 : Nat) ≠ 400 := by
  refine ⟨by decide, by decide⟩

/-- C6 (amended): a submission whose token splits into exactly three
dot-separated segments but whose header segment does not decode to valid
JSON is answered with status 500 and the internal-error body, not 400. -/
theorem C6_theorem (raw : List Char) (parseHeader : List Char → HeaderParse)
    (verify : List Char → JwtOutcome) (st : ServerState)
    (htok : stripOuterQuotes (jsTrim raw) ≠ [])
    (hsplit : (splitOnDot (stripOuterQuotes (jsTrim raw))).length = 3)
    (hhdr : parseHeader ((splitOnDot (stripOuterQuotes (jsTrim raw))).getD 0 [])
              = .throwsSyntaxError) :
    (handleWebhook true raw parseHeader verify st).status = 500
    ∧ (handleWebhook true raw parseHeader verify st).body
        = .errorMsg "Internal server error" := by
  unfold handleWebhook
  simp only [if_neg htok, hsplit, hhdr]
  simp

/-- C6 witness: the amended theorem applied to the token `a.b.c` with a
header oracle that throws. -/
theorem C6_witness :
    (handleWebhook true "a.b.c".toList hdrThrows (okVerify .null)
        { connectedClients := 0, clients := [] }).status = 500
    ∧ (handleWebhook true "a.b.c".toList hdrThrows (okVerify .null)
        { connectedClients := 0, clients := [] }).body
        = .errorMsg "Internal server error" :=
  C6_theorem "a.b.c".toList hdrThrows (okVerify .null)
    { connectedClients := 0, clients := [] } (by decide) (by decide) rfl

/-- C7: the claim states that a verified payload lacking a `type` field
fails with `MissingEventType` and is never broadcast.  It is false: the
handler reads `decoded.type` without any check, responds 200, and broadcasts
an envelope whose `type` is `undefined` to every connected consumer. -/
theorem C7_counterexample :
    (handleWebhook true hpsBody hdrHS256 (okVerify payloadNoType) oneClientState).status
        = 200
    ∧ (handleWebhook true hpsBody hdrHS256 (okVerify payloadNoType)
        oneClientState).envelope.map (fun e => e.type.isNone) = some true
    ∧ (handleWebhook true hpsBody hdrHS256 (okVerify payloadNoType)
        oneClientState).outcome.map (fun o => o.globalDeliveries) = some ["c1"] := by
  refine ⟨by decide, by decide, by decide⟩

/-- C7 (amended): there is no missing-type check: a verified payload with no
`type` field is normalized with an absent (`undefined`) type and broadcast
on the global channel to every registered subscriber, and the request
succeeds with 200. -/
theorem C7_theorem (raw : List Char) (parseHeader : List Char → HeaderParse)
    (verify : List Char → JwtOutcome) (st : ServerState) (header payload : Json)
    (htok : stripOuterQuotes (jsTrim raw) ≠ [])
    (hsplit : (splitOnDot (stripOuterQuotes (jsTrim raw))).length = 3)
    (hhdr : parseHeader ((splitOnDot (stripOuterQuotes (jsTrim raw))).getD 0 [])
              = .value header)
    (hnull : header.isNull = false)
    (halg : algIsHS256 (header.get "alg") = true)
    (hver : verify (stripOuterQuotes (jsTrim raw)) = .ok payload)
    (htype : payload.get "type" = none) :
    (handleWebhook true raw parseHeader verify st).status = 200
    ∧ (handleWebhook true raw parseHeader verify st).envelope.map
        (fun e => e.type.isNone) = some true
    ∧ (handleWebhook true raw parseHeader verify st).outcome.map
        (fun o => o.globalDeliveries) = some (st.clients.map (fun c => c.id)) := by
  rw [handleWebhook_success raw parseHeader verify st header payload
    htok hsplit hhdr hnull halg hver]
  refine ⟨rfl, ?_, rfl⟩
  simp [htype]

/-- C7 witness: the amended theorem applied to a payload carrying only a
nested `data` field. -/
theorem C7_witness :
    (handleWebhook true hpsBody hdrHS256 (okVerify payloadNoType) oneClientState).status
        = 200
    ∧ (handleWebhook true hpsBody hdrHS256 (okVerify payloadNoType)
        oneClientState).envelope.map (fun e => e.type.isNone) = some true
    ∧ (handleWebhook true hpsBody hdrHS256 (okVerify payloadNoType)
        oneClientState).outcome.map (fun o => o.globalDeliveries)
        = some (oneClientState.clients.map (fun c => c.id)) :=
  C7_theorem hpsBody hdrHS256 (okVerify payloadNoType) oneClientState
    (.obj [("alg", .str "HS256")]) payloadNoType
    (by decide) (by decide) rfl rfl rfl rfl rfl

/-- C8: the claim states that when a verified payload has no nested `data`
field, the broadcast envelope's `data` is the payload with the `type` key
removed, and that a present `data` field is always used.  Both parts are
false: the fallback `decoded.data || decoded` keeps the whole payload
including its `type` key, and a present-but-falsy `data` field (here `0`)
also falls back to the whole payload. -/
theorem C8_counterexample :
    (handleWebhook true hpsBody hdrHS256 (okVerify payloadTypeOnly)
        oneClientState).envelope.map (fun e => (e.data.get "type").isSome) = some true
    ∧ (handleWebhook true hpsBody hdrHS256 (okVerify payloadFalsyData)
        oneClientState).envelope.map (fun e => (e.data.get "type").isSome) = some true := by
  refine ⟨by decide, by decide⟩

/-- C8 (amended): the broadcast envelope's `data` equals the payload's
nested `data` field when that field is present and truthy; when the field is
absent, or present but falsy, `data` is the entire payload unchanged — in
particular the fallback still contains the `type` key whenever the payload
does. -/
theorem C8_theorem (raw : List Char) (parseHeader : List Char → HeaderParse)
    (verify : List Char → JwtOutcome) (st : ServerState) (header payload : Json)
    (htok : stripOuterQuotes (jsTrim raw) ≠ [])
    (hsplit : (splitOnDot (stripOuterQuotes (jsTrim raw))).length = 3)
    (hhdr : parseHeader ((splitOnDot (stripOuterQuotes (jsTrim raw))).getD 0 [])
              = .value header)
    (hnull : header.isNull = false)
    (halg : algIsHS256 (header.get "alg") = true)
    (hver : verify (stripOuterQuotes (jsTrim raw)) = .ok payload) :
    (∀ v, payload.get "data" = some v → v.truthy = true →
        (handleWebhook true raw parseHeader verify st).envelope.map (fun e => e.data)
          = some v)
    ∧ (payload.get "data" = none →
        (handleWebhook true raw parseHeader verify st).envelope.map (fun e => e.data)
          = some payload)
    ∧ (∀ v, payload.get "data" = some v → v.truthy = false →
        (handleWebhook true raw parseHeader verify st).envelope.map (fun e => e.data)
          = some payload) := by
  rw [handleWebhook_success raw parseHeader verify st header payload
    htok hsplit hhdr hnull halg hver]
  refine ⟨fun v hv htr => ?_, fun hv => ?_, fun v hv htr => ?_⟩
  · simp [jsOr, hv, htr]
  · simp [jsOr, hv]
  · simp [jsOr, hv, htr]

/-- C8 witness: for the payload with a `type` but no `data` field, the
envelope's `data` is the whole payload (its `type` key included). -/
theorem C8_witness :
    (handleWebhook true hpsBody hdrHS256 (okVerify payloadTypeOnly)
        oneClientState).envelope.map (fun e => e.data) = some payloadTypeOnly :=
  (C8_theorem hpsBody hdrHS256 (okVerify payloadTypeOnly) oneClientState
    (.obj [("alg", .str "HS256")]) payloadTypeOnly
    (by decide) (by decide) rfl rfl rfl rfl).2.1 rfl

/-- C9: for every accepted webhook submission, the broadcast delivers the
global event message to every one of the `N` currently-registered
subscribers, increments each subscriber's delivery counter by exactly one,
and the 200 response reports `broadcasted = N`, the snapshot count of
subscribers (the `connectedClients` counter, which the claim hypothesis ties
to the registry size). -/
theorem C9_theorem (raw : List Char) (parseHeader : List Char → HeaderParse)
    (verify : List Char → JwtOutcome) (st : ServerState) (header payload : Json)
    (htok : stripOuterQuotes (jsTrim raw) ≠ [])
    (hsplit : (splitOnDot (stripOuterQuotes (jsTrim raw))).length = 3)
    (hhdr : parseHeader ((splitOnDot (stripOuterQuotes (jsTrim raw))).getD 0 [])
              = .value header)
    (hnull : header.isNull = false)
    (halg : algIsHS256 (header.get "alg") = true)
    (hver : verify (stripOuterQuotes (jsTrim raw)) = .ok payload)
    (hinv : st.connectedClients = st.clients.length) :
    (handleWebhook true raw parseHeader verify st).status = 200
    ∧ (handleWebhook true raw parseHeader verify st).body
        = .successBody st.clients.length
    ∧ (handleWebhook true raw parseHeader verify st).outcome.map
        (fun o => o.globalDeliveries) = some (st.clients.map (fun c => c.id))
    ∧ (handleWebhook true raw parseHeader verify st).outcome.map
        (fun o => o.globalDeliveries.length) = some st.clients.length
    ∧ (handleWebhook true raw parseHeader verify st).outcome.map
        (fun o => o.newClients.map (fun c => c.eventsReceived))
        = some (st.clients.map (fun c => c.eventsReceived + 1)) := by
  rw [handleWebhook_success raw parseHeader verify st header payload
    htok hsplit hhdr hnull halg hver]
  refine ⟨rfl, by simp [hinv], rfl, ?_, ?_⟩
  · simp [broadcastEvent]
  · simp [broadcastEvent]

/-- C9 witness: the theorem applied to a two-subscriber state: both receive
the global message, both counters rise by one, and the response reports
`broadcasted = 2`. -/
theorem C9_witness :
    (handleWebhook true hpsBody hdrHS256 (okVerify payloadFull) twoClientState).status
        = 200
    ∧ (handleWebhook true hpsBody hdrHS256 (okVerify payloadFull) twoClientState).body
        = .successBody twoClientState.clients.length
    ∧ (handleWebhook true hpsBody hdrHS256 (okVerify payloadFull)
        twoClientState).outcome.map (fun o => o.globalDeliveries)
        = some (twoClientState.clients.map (fun c => c.id))
    ∧ (handleWebhook true hpsBody hdrHS256 (okVerify payloadFull)
        twoClientState).outcome.map (fun o => o.globalDeliveries.length)
        = some twoClientState.clients.length
    ∧ (handleWebhook true hpsBody hdrHS256 (okVerify payloadFull)
        twoClientState).outcome.map
        (fun o => o.newClients.map (fun c => c.eventsReceived))
        = some (twoClientState.clients.map (fun c => c.eventsReceived + 1)) :=
  C9_theorem hpsBody hdrHS256 (okVerify payloadFull) twoClientState
    (.obj [("alg", .str "HS256")]) payloadFull
    (by decide) (by decide) rfl rfl rfl rfl rfl

end DPRelay
